import Mathlib

/-!
Verification of the signus service (`src/services/signus/mod.rs`).

The service orchestrates DID creation, signing, verification, encryption and
decryption over a registry of cryptographic backends keyed by algorithm
identifier.  The backend trait (`CryptoType`), the record types, and the
Base58 codec are embedded below; the concrete ed25519 backend and the Base58
implementation live outside the embedded module, so they appear here as
parameters, with their contracts stated as explicit hypotheses where a claim
needs them.

Modelling conventions:
  * raw byte vectors (`Vec<u8>`) are `List Nat`;
  * randomness consumed by a backend call (`create_key_pair`,
    `create_key_pair_for_signature` without a seed, `gen_nonce`) is made
    explicit: those operations receive a value of an entropy type `E`;
  * a Rust panic is the `none` case of an outer `Option`;
  * `Result<T, SignusError>` is `Except SignusError T`.
-/

namespace Signus

/-- Raw bytes (`Vec<u8>` in the source). -/
abbrev Bytes := List Nat

/-- The subset of `errors::crypto::CryptoError` constructed by this module.
Modelled from the spec: the error enum itself is declared outside the
embedded file; the three constructors below are exactly the ones the
embedded module builds (`UnknownType`, `InvalidStructure`, `BackendError`). -/
inductive CryptoError where
  | UnknownType (s : String)
  | InvalidStructure (s : String)
  | BackendError (s : String)
  deriving DecidableEq, Repr

/-- `errors::signus::SignusError`.  Modelled from the spec: the enum is
declared outside the embedded file.  `CryptoError` wraps backend/crypto
errors (the module builds these explicitly); `DecodingError` is the
spec's decoding-failure kind, produced when the exchange codec rejects an
encoded field (the `?` conversion of the codec's error), carrying the
offending encoded text. -/
inductive SignusError where
  | CryptoError (e : CryptoError)
  | DecodingError (s : String)
  deriving DecidableEq, Repr

/-- The backend trait `CryptoType` of the source, with randomness made
explicit: `E` is the entropy consumed by one random generation. -/
structure CryptoType (E : Type) where
  create_key_pair : E → Bytes × Bytes
  encrypt : Bytes → Bytes → Bytes → Bytes → Bytes
  decrypt : Bytes → Bytes → Bytes → Bytes → Except CryptoError Bytes
  gen_nonce : E → Bytes
  create_key_pair_for_signature : Option Bytes → E → Bytes × Bytes
  sign : Bytes → Bytes → Bytes
  verify : Bytes → Bytes → Bytes → Bool

/-- The exchange codec (Base58 in the source), an external collaborator:
`encode` is total, `decode` rejects malformed text with `none`. -/
structure Codec where
  encode : Bytes → String
  decode : String → Option Bytes

/-- `MyDidInfo` (creation request). -/
structure MyDidInfo where
  did : Option String
  seed : Option String
  crypto_type : Option String
  deriving DecidableEq, Repr

/-- `MyDid` (local identity).  Field names follow the accesses in the
embedded module (`did`, `crypto_type`, `secret_key`, `ver_key`, `sign_key`)
and the argument order of `MyDid::new`; the encryption public key field is
named `pk` after the spec's data model. -/
structure MyDid where
  did : String
  crypto_type : String
  pk : String
  secret_key : String
  ver_key : String
  sign_key : String
  deriving DecidableEq, Repr

/-- `TheirDid` (remote identity). -/
structure TheirDid where
  did : String
  crypto_type : Option String
  pk : Option String
  verkey : String
  deriving DecidableEq, Repr

/-- `DEFAULT_CRYPTO_TYPE`. -/
def DEFAULT_CRYPTO_TYPE : String := "ed25519"

/-- `SignusService`: the registry mapping algorithm identifiers to backends,
a `HashMap<&str, Box<CryptoType>>` modelled as a partial function. -/
structure SignusService (E : Type) where
  crypto_types : String → Option (CryptoType E)

/-- `SignusService::new`: the registry holding exactly the entry inserted for
`DEFAULT_CRYPTO_TYPE` (the backend instance is a parameter here, standing
for `ED25519Signus::new()`). -/
def SignusService.new {E : Type} (ed : CryptoType E) : SignusService E :=
  ⟨fun s => if s = DEFAULT_CRYPTO_TYPE then some ed else none⟩

/-- Rust slice indexing `xs[a..b]`: `none` is the out-of-bounds panic. -/
def rustSlice (xs : Bytes) (a b : Nat) : Option Bytes :=
  if a ≤ b ∧ b ≤ xs.length then some ((xs.drop a).take (b - a)) else none

/-- UTF-8 encoding of one code point. -/
def charUtf8 (n : Nat) : Bytes :=
  if n < 128 then [n]
  else if n < 2048 then [192 + n / 64, 128 + n % 64]
  else if n < 65536 then [224 + n / 4096, 128 + (n / 64) % 64, 128 + n % 64]
  else [240 + n / 262144, 128 + (n / 4096) % 64, 128 + (n / 64) % 64, 128 + n % 64]

/-- Rust `str::as_bytes`: the UTF-8 bytes of a string. -/
def utf8 (s : String) : Bytes := (s.data.map (fun c => charUtf8 c.toNat)).flatten

/-- `SignusService::create_my_did`.  `e1` is the entropy consumed by
`create_key_pair`, `e2` the entropy consumed by
`create_key_pair_for_signature` when no seed forces determinism.  The outer
`Option` records the panic of the unchecked slice `ver_key[0..16]`, whose
evaluation Rust's eager `unwrap_or` argument forces on every path that
reaches it, even when an explicit DID was supplied. -/
def SignusService.create_my_did {E : Type} (S : SignusService E) (C : Codec)
    (did_info : MyDidInfo) (e1 e2 : E) : Option (Except SignusError MyDid) :=
  let xtype := did_info.crypto_type.getD DEFAULT_CRYPTO_TYPE
  match S.crypto_types xtype with
  | none => some (Except.error (SignusError.CryptoError (CryptoError.UnknownType xtype)))
  | some signus =>
    let seed := did_info.seed.map utf8
    let ekp := signus.create_key_pair e1
    let skp := signus.create_key_pair_for_signature seed e2
    match rustSlice skp.1 0 16 with
    | none => none
    | some sl =>
      let didRes : Except SignusError Bytes :=
        match did_info.did with
        | some d =>
          match C.decode d with
          | some bs => Except.ok bs
          | none => Except.error (SignusError.DecodingError d)
        | none => Except.ok sl
      match didRes with
      | Except.error e => some (Except.error e)
      | Except.ok did =>
        some (Except.ok
          { did := C.encode did
            crypto_type := xtype
            pk := C.encode ekp.1
            secret_key := C.encode ekp.2
            ver_key := C.encode skp.1
            sign_key := C.encode skp.2 })

/-- `SignusService::sign`. -/
def SignusService.sign {E : Type} (S : SignusService E) (C : Codec)
    (my_did : MyDid) (doc : String) : Except SignusError String :=
  match S.crypto_types my_did.crypto_type with
  | none => Except.error (SignusError.CryptoError (CryptoError.UnknownType my_did.crypto_type))
  | some signus =>
    match C.decode my_did.sign_key with
    | none => Except.error (SignusError.DecodingError my_did.sign_key)
    | some sign_key => Except.ok (C.encode (signus.sign sign_key (utf8 doc)))

/-- `SignusService::verify`. -/
def SignusService.verify {E : Type} (S : SignusService E) (C : Codec)
    (their_did : TheirDid) (doc sig : String) : Except SignusError Bool :=
  let xtype := their_did.crypto_type.getD DEFAULT_CRYPTO_TYPE
  match S.crypto_types xtype with
  | none => Except.error (SignusError.CryptoError (CryptoError.UnknownType xtype))
  | some signus =>
    match C.decode their_did.verkey with
    | none => Except.error (SignusError.DecodingError their_did.verkey)
    | some verkey =>
      match C.decode sig with
      | none => Except.error (SignusError.DecodingError sig)
      | some signature => Except.ok (signus.verify verkey (utf8 doc) signature)

/-- `SignusService::encrypt`.  `e` is the entropy consumed by `gen_nonce`. -/
def SignusService.encrypt {E : Type} (S : SignusService E) (C : Codec)
    (my_did : MyDid) (their_did : TheirDid) (doc : String) (e : E) :
    Except SignusError (String × String) :=
  match S.crypto_types my_did.crypto_type with
  | none => Except.error (SignusError.CryptoError (CryptoError.UnknownType my_did.crypto_type))
  | some signus =>
    match their_did.pk with
    | none => Except.error (SignusError.CryptoError (CryptoError.InvalidStructure "Public key not found"))
    | some public_key =>
      let nonce := signus.gen_nonce e
      match C.decode my_did.secret_key with
      | none => Except.error (SignusError.DecodingError my_did.secret_key)
      | some secret_key =>
        match C.decode public_key with
        | none => Except.error (SignusError.DecodingError public_key)
        | some pk_raw =>
          match C.decode doc with
          | none => Except.error (SignusError.DecodingError doc)
          | some doc_raw =>
            Except.ok (C.encode (signus.encrypt secret_key pk_raw doc_raw nonce), C.encode nonce)

/-- `SignusService::decrypt`. -/
def SignusService.decrypt {E : Type} (S : SignusService E) (C : Codec)
    (my_did : MyDid) (their_did : TheirDid) (doc nonce : String) :
    Except SignusError String :=
  match S.crypto_types my_did.crypto_type with
  | none => Except.error (SignusError.CryptoError (CryptoError.UnknownType my_did.crypto_type))
  | some signus =>
    match their_did.pk with
    | none => Except.error (SignusError.CryptoError (CryptoError.BackendError "Public key not found"))
    | some public_key =>
      match C.decode my_did.secret_key with
      | none => Except.error (SignusError.DecodingError my_did.secret_key)
      | some secret_key =>
        match C.decode public_key with
        | none => Except.error (SignusError.DecodingError public_key)
        | some pk_raw =>
          match C.decode doc with
          | none => Except.error (SignusError.DecodingError doc)
          | some doc_raw =>
            match C.decode nonce with
            | none => Except.error (SignusError.DecodingError nonce)
            | some nonce_raw =>
              match signus.decrypt secret_key pk_raw doc_raw nonce_raw with
              | Except.error e => Except.error (SignusError.CryptoError e)
              | Except.ok dec => Except.ok (C.encode dec)

/-! ### Collaborator contracts

The Base58 codec and the ed25519 backend are outside the embedded module;
the properties of theirs that some claims rest on are stated here as named
predicates and assumed as hypotheses in those claims' theorems. -/

/-- Modelled from the spec: the exchange codec is reversible — `decode` is a
left inverse of `encode` (`Base58` is "a generic reversible binary-to-text
encoding"; its implementation is not part of the embedded sources). -/
def RoundTripCodec (C : Codec) : Prop :=
  ∀ bs : Bytes, C.decode (C.encode bs) = some bs

/-- Modelled from the spec: a backend's signature verification accepts a
signature made with the signing key of the same generated key pair
(`generate_signing_keypair` / `sign` / `verify` of the backend contract;
`ED25519Signus` in `ed25519.rs` is not part of the embedded sources). -/
def SignKeyPairOk {E : Type} (B : CryptoType E) : Prop :=
  ∀ (seed : Option Bytes) (e : E) (d : Bytes),
    B.verify (B.create_key_pair_for_signature seed e).1 d
      (B.sign (B.create_key_pair_for_signature seed e).2 d) = true

/-- Modelled from the spec: a backend's signing key pair generation is
deterministic when a seed is present — it does not consume entropy
(`generate_signing_keypair(seed)` is "deterministic iff seed present";
`ED25519Signus` in `ed25519.rs` is not part of the embedded sources). -/
def DeterministicSeeded {E : Type} (B : CryptoType E) : Prop :=
  ∀ (s : Bytes) (e e' : E),
    B.create_key_pair_for_signature (some s) e = B.create_key_pair_for_signature (some s) e'

/-! ### Concrete instances

A small executable codec and backend satisfying the collaborator contracts,
used to instantiate the theorems' hypotheses at concrete inputs. -/

/-- Toy codec alphabet: the byte `n` becomes `n` letters `a` and a closing `b`. -/
def tcByte (n : Nat) : List Char := List.replicate n 'a' ++ ['b']

/-- Decoder for the toy codec; `acc` is the length of the pending run of `a`s. -/
def tcDecodeAux : List Char → Nat → Option Bytes
  | [], 0 => some []
  | [], _ + 1 => none
  | c :: cs, acc =>
    if c = 'a' then tcDecodeAux cs (acc + 1)
    else if c = 'b' then (tcDecodeAux cs 0).map (fun bs => acc :: bs)
    else none

/-- A concrete reversible codec. -/
def toyCodec : Codec :=
  { encode := fun bs => String.mk ((bs.map tcByte).flatten)
    decode := fun s => tcDecodeAux s.data 0 }

theorem tcDecodeAux_run (n : Nat) (cs : List Char) (acc : Nat) :
    tcDecodeAux (List.replicate n 'a' ++ 'b' :: cs) acc
      = (tcDecodeAux cs 0).map (fun bs => (acc + n) :: bs) := by
  induction n generalizing acc with
  | zero => simp [tcDecodeAux]
  | succ n ih =>
    rw [List.replicate_succ, List.cons_append]
    show tcDecodeAux (List.replicate n 'a' ++ 'b' :: cs) (acc + 1) = _
    rw [ih]
    have h2 : acc + 1 + n = acc + (n + 1) := by omega
    rw [h2]

theorem toyCodec_roundtrip : RoundTripCodec toyCodec := by
  intro bs
  show tcDecodeAux ((bs.map tcByte).flatten) 0 = some bs
  induction bs with
  | nil => rfl
  | cons b bs ih =>
    have h : ((b :: bs).map tcByte).flatten
        = List.replicate b 'a' ++ 'b' :: (bs.map tcByte).flatten := by
      simp [tcByte]
    rw [h, tcDecodeAux_run, ih]
    simp

/-- Modelled from the spec: a stand-in for the `ED25519Signus` backend
(`ed25519.rs` is not part of the embedded sources), concrete and
executable, satisfying the backend contract used by the claims: the
verification key is the signing key minus a leading tag byte, a signature
is the signing key followed by the document, seeded signing-key generation
ignores its entropy, and verification keys are at least 16 bytes long. -/
def ED25519Signus : CryptoType Nat :=
  { create_key_pair := fun e => ([e], [e + 1])
    encrypt := fun sk pk d n => sk ++ pk ++ d ++ n
    decrypt := fun _ _ d _ => Except.ok d
    gen_nonce := fun e => [e, e]
    create_key_pair_for_signature := fun seed e =>
      ((match seed with | some s => s | none => [e]) ++ List.replicate 16 0,
       9 :: ((match seed with | some s => s | none => [e]) ++ List.replicate 16 0))
    sign := fun sk d => sk ++ d
    verify := fun vk d sg => sg == 9 :: (vk ++ d) }

theorem ED25519Signus_sign_ok : SignKeyPairOk ED25519Signus := by
  intro seed e d
  simp [ED25519Signus]

theorem ED25519Signus_det : DeterministicSeeded ED25519Signus := by
  intro s e e'
  rfl

/-- A codec that rejects every encoded text: instantiating an operation with
it shows the operation's result on a given path involves no decoding. -/
def failCodec : Codec := ⟨fun _ => "", fun _ => none⟩

/-! ### Claims -/

/-- C9: the registry built by `SignusService::new` holds exactly one entry,
under the default identifier `"ed25519"`; every operation whose effective
algorithm identifier is any other string returns `UnknownType` (the model is
a pure value, never mutated — `new` is the only constructor and no operation
takes `&mut self`). -/
theorem C9_registry_single_entry {E : Type} (ed : CryptoType E) (x : String)
    (hx : x ≠ DEFAULT_CRYPTO_TYPE) :
    DEFAULT_CRYPTO_TYPE = "ed25519"
    ∧ (SignusService.new ed).crypto_types DEFAULT_CRYPTO_TYPE = some ed
    ∧ (SignusService.new ed).crypto_types x = none
    ∧ (∀ (C : Codec) (info : MyDidInfo) (e1 e2 : E), info.crypto_type = some x →
        (SignusService.new ed).create_my_did C info e1 e2
          = some (Except.error (SignusError.CryptoError (CryptoError.UnknownType x))))
    ∧ (∀ (C : Codec) (m : MyDid) (doc : String), m.crypto_type = x →
        (SignusService.new ed).sign C m doc
          = Except.error (SignusError.CryptoError (CryptoError.UnknownType x)))
    ∧ (∀ (C : Codec) (t : TheirDid) (doc sig : String), t.crypto_type = some x →
        (SignusService.new ed).verify C t doc sig
          = Except.error (SignusError.CryptoError (CryptoError.UnknownType x)))
    ∧ (∀ (C : Codec) (m : MyDid) (t : TheirDid) (doc : String) (e : E), m.crypto_type = x →
        (SignusService.new ed).encrypt C m t doc e
          = Except.error (SignusError.CryptoError (CryptoError.UnknownType x)))
    ∧ (∀ (C : Codec) (m : MyDid) (t : TheirDid) (doc nonce : String), m.crypto_type = x →
        (SignusService.new ed).decrypt C m t doc nonce
          = Except.error (SignusError.CryptoError (CryptoError.UnknownType x))) := by
  refine ⟨rfl, by simp [SignusService.new], by simp [SignusService.new, hx], ?_, ?_, ?_, ?_, ?_⟩
  · intro C info e1 e2 h
    simp [SignusService.create_my_did, SignusService.new, h, hx]
  · intro C m doc h
    simp [SignusService.sign, SignusService.new, h, hx]
  · intro C t doc sig h
    simp [SignusService.verify, SignusService.new, h, hx]
  · intro C m t doc e h
    simp [SignusService.encrypt, SignusService.new, h, hx]
  · intro C m t doc nonce h
    simp [SignusService.decrypt, SignusService.new, h, hx]

theorem C9_witness :
    (SignusService.new ED25519Signus).crypto_types "type" = none
    ∧ (SignusService.new ED25519Signus).sign failCodec ⟨"d", "type", "p", "s", "v", "k"⟩ "doc"
        = Except.error (SignusError.CryptoError (CryptoError.UnknownType "type")) := by
  have h := C9_registry_single_entry ED25519Signus "type" (by decide)
  exact ⟨h.2.2.1, h.2.2.2.2.1 failCodec ⟨"d", "type", "p", "s", "v", "k"⟩ "doc" rfl⟩

/-- C4: in each of the five operations, an absent algorithm identifier is
replaced by the default before lookup (for the two operations whose
identifier is optional — `create` and `verify`; the other three carry a
mandatory identifier), lookup is exact string equality, and an identifier
missing from the registry yields `UnknownType` for every codec whatsoever —
in particular before any decoding of any encoded field. -/
theorem C4_unknown_type_before_decode {E : Type} (S : SignusService E) (x : String)
    (hU : S.crypto_types x = none) :
    (∀ (C : Codec) (info : MyDidInfo) (e1 e2 : E),
        info.crypto_type.getD DEFAULT_CRYPTO_TYPE = x →
        S.create_my_did C info e1 e2
          = some (Except.error (SignusError.CryptoError (CryptoError.UnknownType x))))
    ∧ (∀ (C : Codec) (m : MyDid) (doc : String), m.crypto_type = x →
        S.sign C m doc = Except.error (SignusError.CryptoError (CryptoError.UnknownType x)))
    ∧ (∀ (C : Codec) (t : TheirDid) (doc sig : String),
        t.crypto_type.getD DEFAULT_CRYPTO_TYPE = x →
        S.verify C t doc sig = Except.error (SignusError.CryptoError (CryptoError.UnknownType x)))
    ∧ (∀ (C : Codec) (m : MyDid) (t : TheirDid) (doc : String) (e : E), m.crypto_type = x →
        S.encrypt C m t doc e = Except.error (SignusError.CryptoError (CryptoError.UnknownType x)))
    ∧ (∀ (C : Codec) (m : MyDid) (t : TheirDid) (doc nonce : String), m.crypto_type = x →
        S.decrypt C m t doc nonce
          = Except.error (SignusError.CryptoError (CryptoError.UnknownType x)))
    ∧ (∀ (C : Codec) (info : MyDidInfo) (e1 e2 : E),
        S.create_my_did C { info with crypto_type := none } e1 e2
          = S.create_my_did C { info with crypto_type := some DEFAULT_CRYPTO_TYPE } e1 e2)
    ∧ (∀ (C : Codec) (t : TheirDid) (doc sig : String),
        S.verify C { t with crypto_type := none } doc sig
          = S.verify C { t with crypto_type := some DEFAULT_CRYPTO_TYPE } doc sig) := by
  refine ⟨?_, ?_, ?_, ?_, ?_, ?_, ?_⟩
  · intro C info e1 e2 h
    simp [SignusService.create_my_did, h, hU]
  · intro C m doc h
    simp [SignusService.sign, h, hU]
  · intro C t doc sig h
    simp [SignusService.verify, h, hU]
  · intro C m t doc e h
    simp [SignusService.encrypt, h, hU]
  · intro C m t doc nonce h
    simp [SignusService.decrypt, h, hU]
  · intro C info e1 e2
    simp [SignusService.create_my_did]
  · intro C t doc sig
    simp [SignusService.verify]

theorem C4_witness :
    (SignusService.new ED25519Signus).sign failCodec ⟨"d", "foo", "p", "s", "v", "k"⟩ "doc"
        = Except.error (SignusError.CryptoError (CryptoError.UnknownType "foo"))
    ∧ (SignusService.new ED25519Signus).verify failCodec ⟨"d", some "foo", none, "v"⟩ "doc" "sig"
        = Except.error (SignusError.CryptoError (CryptoError.UnknownType "foo"))
    ∧ (SignusService.new ED25519Signus).create_my_did failCodec ⟨none, none, some "foo"⟩ 0 1
        = some (Except.error (SignusError.CryptoError (CryptoError.UnknownType "foo"))) := by
  have h := C4_unknown_type_before_decode (SignusService.new ED25519Signus) "foo" (by simp [SignusService.new, DEFAULT_CRYPTO_TYPE])
  exact ⟨h.2.1 failCodec ⟨"d", "foo", "p", "s", "v", "k"⟩ "doc" rfl,
         h.2.2.1 failCodec ⟨"d", some "foo", none, "v"⟩ "doc" "sig" rfl,
         h.1 failCodec ⟨none, none, some "foo"⟩ 0 1 rfl⟩

/-- C5: with `TheirDid.pk` absent, `encrypt` fails with
`InvalidStructure("Public key not found")` and `decrypt` with
`BackendError("Public key not found")`; the unknown-algorithm check comes
first (first conjunct), the missing-key check fires for every codec — so
before any decoding — and both operations return a typed error (they are
total functions into `Except`, no panic, no default key). -/
theorem C5_missing_public_key {E : Type} (S : SignusService E) (m : MyDid) (t : TheirDid)
    (hpk : t.pk = none) :
    (S.crypto_types m.crypto_type = none →
      (∀ (C : Codec) (doc : String) (e : E),
        S.encrypt C m t doc e
          = Except.error (SignusError.CryptoError (CryptoError.UnknownType m.crypto_type)))
      ∧ (∀ (C : Codec) (doc nonce : String),
        S.decrypt C m t doc nonce
          = Except.error (SignusError.CryptoError (CryptoError.UnknownType m.crypto_type))))
    ∧ (∀ B, S.crypto_types m.crypto_type = some B →
      (∀ (C : Codec) (doc : String) (e : E),
        S.encrypt C m t doc e
          = Except.error (SignusError.CryptoError
              (CryptoError.InvalidStructure "Public key not found")))
      ∧ (∀ (C : Codec) (doc nonce : String),
        S.decrypt C m t doc nonce
          = Except.error (SignusError.CryptoError
              (CryptoError.BackendError "Public key not found")))) := by
  constructor
  · intro hU
    constructor
    · intro C doc e
      simp [SignusService.encrypt, hU]
    · intro C doc nonce
      simp [SignusService.decrypt, hU]
  · intro B hB
    constructor
    · intro C doc e
      simp [SignusService.encrypt, hB, hpk]
    · intro C doc nonce
      simp [SignusService.decrypt, hB, hpk]

theorem C5_witness :
    (SignusService.new ED25519Signus).encrypt failCodec ⟨"d", "ed25519", "p", "s", "v", "k"⟩
        ⟨"t", none, none, "v"⟩ "doc" 0
      = Except.error (SignusError.CryptoError (CryptoError.InvalidStructure "Public key not found"))
    ∧ (SignusService.new ED25519Signus).decrypt failCodec ⟨"d", "ed25519", "p", "s", "v", "k"⟩
        ⟨"t", none, none, "v"⟩ "doc" "n"
      = Except.error (SignusError.CryptoError (CryptoError.BackendError "Public key not found")) := by
  have h := (C5_missing_public_key (SignusService.new ED25519Signus)
    ⟨"d", "ed25519", "p", "s", "v", "k"⟩ ⟨"t", none, none, "v"⟩ rfl).2 ED25519Signus
    (by simp [SignusService.new, DEFAULT_CRYPTO_TYPE])
  exact ⟨h.1 failCodec "doc" 0, h.2 failCodec "doc" "n"⟩

/-- C10: `encrypt` and `decrypt` read only `crypto_type` and `secret_key`
from the `MyDid` record and only `pk` from the `TheirDid` record: two calls
whose identity records agree on those three fields — whatever their other
fields, in particular `TheirDid.crypto_type`, `TheirDid.did` and
`TheirDid.verkey` — return identical results. -/
theorem C10_unused_fields_irrelevant {E : Type} (S : SignusService E) (C : Codec)
    (m m' : MyDid) (t t' : TheirDid) (doc nonce : String) (e : E)
    (h1 : m.crypto_type = m'.crypto_type) (h2 : m.secret_key = m'.secret_key)
    (h3 : t.pk = t'.pk) :
    S.encrypt C m t doc e = S.encrypt C m' t' doc e
    ∧ S.decrypt C m t doc nonce = S.decrypt C m' t' doc nonce := by
  constructor
  · unfold SignusService.encrypt
    rw [h1, h2, h3]
  · unfold SignusService.decrypt
    rw [h1, h2, h3]

theorem C10_witness :
    (SignusService.new ED25519Signus).encrypt toyCodec ⟨"d1", "ed25519", "p1", "s", "v1", "k1"⟩
        ⟨"t1", some "ed25519", some "pk", "v1"⟩ "doc" 0
      = (SignusService.new ED25519Signus).encrypt toyCodec ⟨"d2", "ed25519", "p2", "s", "v2", "k2"⟩
        ⟨"t2", none, some "pk", "v2"⟩ "doc" 0
    ∧ (SignusService.new ED25519Signus).decrypt toyCodec ⟨"d1", "ed25519", "p1", "s", "v1", "k1"⟩
        ⟨"t1", some "ed25519", some "pk", "v1"⟩ "doc" "n"
      = (SignusService.new ED25519Signus).decrypt toyCodec ⟨"d2", "ed25519", "p2", "s", "v2", "k2"⟩
        ⟨"t2", none, some "pk", "v2"⟩ "doc" "n" :=
  C10_unused_fields_irrelevant (SignusService.new ED25519Signus) toyCodec
    ⟨"d1", "ed25519", "p1", "s", "v1", "k1"⟩ ⟨"d2", "ed25519", "p2", "s", "v2", "k2"⟩
    ⟨"t1", some "ed25519", some "pk", "v1"⟩ ⟨"t2", none, some "pk", "v2"⟩ "doc" "n" 0 rfl rfl rfl

/-- C2: in `create_my_did`, when no explicit DID is supplied the returned
`did` field is the exchange-encoding of exactly the first 16 raw bytes of
the signing verification key (a byte-for-byte prefix — the theorem pins the
whole returned record, so the DID is `take 16` of the very key returned in
`ver_key`, not a hash); when an explicit DID `s` is supplied it is decoded —
decode failure is a `DecodingError` — and the decoded bytes are used
verbatim as the DID.  The length hypothesis keeps the unchecked slice from
panicking (see C8). -/
theorem C2_did_derivation {E : Type} (S : SignusService E) (B : CryptoType E) (C : Codec)
    (info : MyDidInfo) (e1 e2 : E)
    (hS : S.crypto_types (info.crypto_type.getD DEFAULT_CRYPTO_TYPE) = some B)
    (hlen : 16 ≤ (B.create_key_pair_for_signature (info.seed.map utf8) e2).1.length) :
    (info.did = none →
      S.create_my_did C info e1 e2 = some (Except.ok
        { did := C.encode ((B.create_key_pair_for_signature (info.seed.map utf8) e2).1.take 16)
          crypto_type := info.crypto_type.getD DEFAULT_CRYPTO_TYPE
          pk := C.encode (B.create_key_pair e1).1
          secret_key := C.encode (B.create_key_pair e1).2
          ver_key := C.encode (B.create_key_pair_for_signature (info.seed.map utf8) e2).1
          sign_key := C.encode (B.create_key_pair_for_signature (info.seed.map utf8) e2).2 }))
    ∧ (∀ s, info.did = some s → C.decode s = none →
        S.create_my_did C info e1 e2 = some (Except.error (SignusError.DecodingError s)))
    ∧ (∀ s bs, info.did = some s → C.decode s = some bs →
        S.create_my_did C info e1 e2 = some (Except.ok
          { did := C.encode bs
            crypto_type := info.crypto_type.getD DEFAULT_CRYPTO_TYPE
            pk := C.encode (B.create_key_pair e1).1
            secret_key := C.encode (B.create_key_pair e1).2
            ver_key := C.encode (B.create_key_pair_for_signature (info.seed.map utf8) e2).1
            sign_key := C.encode (B.create_key_pair_for_signature (info.seed.map utf8) e2).2 })) := by
  have hsl : rustSlice (B.create_key_pair_for_signature (info.seed.map utf8) e2).1 0 16
      = some ((B.create_key_pair_for_signature (info.seed.map utf8) e2).1.take 16) := by
    simp [rustSlice, hlen]
  refine ⟨?_, ?_, ?_⟩
  · intro hdid
    simp [SignusService.create_my_did, hS, hsl, hdid]
  · intro s hdid hdec
    simp [SignusService.create_my_did, hS, hsl, hdid, hdec]
  · intro s bs hdid hdec
    simp [SignusService.create_my_did, hS, hsl, hdid, hdec]

theorem C2_witness :
    (SignusService.new ED25519Signus).create_my_did toyCodec ⟨none, none, none⟩ 0 1
      = some (Except.ok
        { did := toyCodec.encode ((ED25519Signus.create_key_pair_for_signature none 1).1.take 16)
          crypto_type := "ed25519"
          pk := toyCodec.encode (ED25519Signus.create_key_pair 0).1
          secret_key := toyCodec.encode (ED25519Signus.create_key_pair 0).2
          ver_key := toyCodec.encode (ED25519Signus.create_key_pair_for_signature none 1).1
          sign_key := toyCodec.encode (ED25519Signus.create_key_pair_for_signature none 1).2 })
    ∧ (SignusService.new ED25519Signus).create_my_did toyCodec
        ⟨some (toyCodec.encode [3, 4]), none, none⟩ 0 1
      = some (Except.ok
        { did := toyCodec.encode [3, 4]
          crypto_type := "ed25519"
          pk := toyCodec.encode (ED25519Signus.create_key_pair 0).1
          secret_key := toyCodec.encode (ED25519Signus.create_key_pair 0).2
          ver_key := toyCodec.encode (ED25519Signus.create_key_pair_for_signature none 1).1
          sign_key := toyCodec.encode (ED25519Signus.create_key_pair_for_signature none 1).2 }) :=
  ⟨(C2_did_derivation (SignusService.new ED25519Signus) ED25519Signus toyCodec
      ⟨none, none, none⟩ 0 1 (by simp [SignusService.new, DEFAULT_CRYPTO_TYPE]) (by decide)).1 rfl,
   (C2_did_derivation (SignusService.new ED25519Signus) ED25519Signus toyCodec
      ⟨some (toyCodec.encode [3, 4]), none, none⟩ 0 1
      (by simp [SignusService.new, DEFAULT_CRYPTO_TYPE]) (by decide)).2.2
      (toyCodec.encode [3, 4]) [3, 4] rfl (toyCodec_roundtrip [3, 4])⟩

/-- C8: the slice `ver_key[0..16]` in `create_my_did` carries no bounds
check: with no explicit DID, a backend whose verification key is shorter
than 16 bytes makes `create_my_did` panic (the model's `none`) rather than
return an `Err`; conversely, whenever the verification key has at least 16
bytes, `create_my_did` never panics (it returns `some` result on every
path). -/
theorem C8_slice_unchecked {E : Type} (S : SignusService E) (B : CryptoType E) (C : Codec)
    (info : MyDidInfo) (e1 e2 : E)
    (hS : S.crypto_types (info.crypto_type.getD DEFAULT_CRYPTO_TYPE) = some B) :
    (info.did = none →
      (B.create_key_pair_for_signature (info.seed.map utf8) e2).1.length < 16 →
      S.create_my_did C info e1 e2 = none)
    ∧ (16 ≤ (B.create_key_pair_for_signature (info.seed.map utf8) e2).1.length →
      (S.create_my_did C info e1 e2).isSome = true) := by
  constructor
  · intro hdid hlen
    have hsl : rustSlice (B.create_key_pair_for_signature (info.seed.map utf8) e2).1 0 16
        = none := by
      simp only [rustSlice, ite_eq_right_iff]
      omega
    simp [SignusService.create_my_did, hS, hsl]
  · intro hlen
    have hsl : rustSlice (B.create_key_pair_for_signature (info.seed.map utf8) e2).1 0 16
        = some ((B.create_key_pair_for_signature (info.seed.map utf8) e2).1.take 16) := by
      simp [rustSlice, hlen]
    cases hdid : info.did with
    | none => simp [SignusService.create_my_did, hS, hsl, hdid]
    | some s =>
      cases hdec : C.decode s with
      | none => simp [SignusService.create_my_did, hS, hsl, hdid, hdec]
      | some bs => simp [SignusService.create_my_did, hS, hsl, hdid, hdec]

/-- A backend whose verification keys are empty, exercising the unchecked
slice of C8. -/
def shortKeyBackend : CryptoType Nat :=
  { ED25519Signus with create_key_pair_for_signature := fun _ _ => ([], []) }

theorem C8_witness :
    (SignusService.new shortKeyBackend).create_my_did toyCodec ⟨none, none, none⟩ 0 1 = none
    ∧ ((SignusService.new ED25519Signus).create_my_did toyCodec
        ⟨none, none, none⟩ 0 1).isSome = true :=
  ⟨(C8_slice_unchecked (SignusService.new shortKeyBackend) shortKeyBackend toyCodec
      ⟨none, none, none⟩ 0 1 (by simp [SignusService.new, DEFAULT_CRYPTO_TYPE])).1 rfl (by decide),
   (C8_slice_unchecked (SignusService.new ED25519Signus) ED25519Signus toyCodec
      ⟨none, none, none⟩ 0 1 (by simp [SignusService.new, DEFAULT_CRYPTO_TYPE])).2 (by decide)⟩

/-- C3: whenever the algorithm identifier resolves and both encoded inputs
decode, `verify` returns `Ok` of the backend's boolean — a mismatching
signature is `Ok false`, never an error; and an `Err` can only arise from an
unresolvable identifier or a failed decode of the verification key or the
signature. -/
theorem C3_verify_error_classification {E : Type} (S : SignusService E) (C : Codec)
    (t : TheirDid) (doc sig : String) :
    (∀ B, S.crypto_types (t.crypto_type.getD DEFAULT_CRYPTO_TYPE) = some B →
      ∀ vk sg, C.decode t.verkey = some vk → C.decode sig = some sg →
        S.verify C t doc sig = Except.ok (B.verify vk (utf8 doc) sg))
    ∧ (∀ e, S.verify C t doc sig = Except.error e →
        S.crypto_types (t.crypto_type.getD DEFAULT_CRYPTO_TYPE) = none
        ∨ C.decode t.verkey = none ∨ C.decode sig = none) := by
  constructor
  · intro B hB vk sg h1 h2
    simp [SignusService.verify, hB, h1, h2]
  · intro e he
    cases hB : S.crypto_types (t.crypto_type.getD DEFAULT_CRYPTO_TYPE) with
    | none => exact Or.inl rfl
    | some B =>
      cases h1 : C.decode t.verkey with
      | none => exact Or.inr (Or.inl rfl)
      | some vk =>
        cases h2 : C.decode sig with
        | none => exact Or.inr (Or.inr rfl)
        | some sg => simp [SignusService.verify, hB, h1, h2] at he

theorem C3_witness :
    (SignusService.new ED25519Signus).verify toyCodec
      ⟨"d", some "ed25519", none, toyCodec.encode [2]⟩ "" (toyCodec.encode [3])
      = Except.ok false := by
  have h := (C3_verify_error_classification (SignusService.new ED25519Signus) toyCodec
      ⟨"d", some "ed25519", none, toyCodec.encode [2]⟩ "" (toyCodec.encode [3])).1
      ED25519Signus (by simp [SignusService.new, DEFAULT_CRYPTO_TYPE]) [2] [3]
      (toyCodec_roundtrip [2]) (toyCodec_roundtrip [3])
  rw [h]
  rfl

/-- C6: `encrypt` decodes its plaintext argument via the exchange codec
before calling the backend — a plaintext the codec rejects is a
`DecodingError`, never encrypted as raw text — and on success returns the
pair (encoded ciphertext, encoded nonce), the nonce being the backend's
fresh generation from this call's entropy. -/
theorem C6_encrypt_decodes_plaintext {E : Type} (S : SignusService E) (B : CryptoType E)
    (C : Codec) (m : MyDid) (t : TheirDid) (pks doc : String) (e : E)
    (hS : S.crypto_types m.crypto_type = some B) (hpk : t.pk = some pks)
    (sk pkb : Bytes) (hsk : C.decode m.secret_key = some sk)
    (hpkb : C.decode pks = some pkb) :
    (C.decode doc = none →
      S.encrypt C m t doc e = Except.error (SignusError.DecodingError doc))
    ∧ (∀ d, C.decode doc = some d →
        S.encrypt C m t doc e
          = Except.ok (C.encode (B.encrypt sk pkb d (B.gen_nonce e)),
                       C.encode (B.gen_nonce e))) := by
  constructor
  · intro hdoc
    simp [SignusService.encrypt, hS, hpk, hsk, hpkb, hdoc]
  · intro d hdoc
    simp [SignusService.encrypt, hS, hpk, hsk, hpkb, hdoc]

theorem C6_witness :
    (SignusService.new ED25519Signus).encrypt toyCodec
      ⟨"d", "ed25519", "p", toyCodec.encode [5], "v", "k"⟩
      ⟨"t", none, some (toyCodec.encode [6]), "v"⟩ (toyCodec.encode [7]) 3
      = Except.ok (toyCodec.encode (ED25519Signus.encrypt [5] [6] [7] (ED25519Signus.gen_nonce 3)),
                   toyCodec.encode (ED25519Signus.gen_nonce 3)) :=
  (C6_encrypt_decodes_plaintext (SignusService.new ED25519Signus) ED25519Signus toyCodec
    ⟨"d", "ed25519", "p", toyCodec.encode [5], "v", "k"⟩
    ⟨"t", none, some (toyCodec.encode [6]), "v"⟩ (toyCodec.encode [6]) (toyCodec.encode [7]) 3
    (by simp [SignusService.new, DEFAULT_CRYPTO_TYPE]) rfl [5] [6]
    (toyCodec_roundtrip [5]) (toyCodec_roundtrip [6])).2 [7] (toyCodec_roundtrip [7])

/-- Every `MyDid` successfully returned by `create_my_did` carries the
resolved algorithm identifier and the encodings of exactly the key material
the backend generated on that call. -/
theorem SignusService.create_my_did_fields {E : Type} (S : SignusService E) (B : CryptoType E)
    (C : Codec) (info : MyDidInfo) (e1 e2 : E) (m : MyDid)
    (hS : S.crypto_types (info.crypto_type.getD DEFAULT_CRYPTO_TYPE) = some B)
    (hc : S.create_my_did C info e1 e2 = some (Except.ok m)) :
    m.crypto_type = info.crypto_type.getD DEFAULT_CRYPTO_TYPE
    ∧ m.pk = C.encode (B.create_key_pair e1).1
    ∧ m.secret_key = C.encode (B.create_key_pair e1).2
    ∧ m.ver_key = C.encode (B.create_key_pair_for_signature (info.seed.map utf8) e2).1
    ∧ m.sign_key = C.encode (B.create_key_pair_for_signature (info.seed.map utf8) e2).2 := by
  cases hsl : rustSlice (B.create_key_pair_for_signature (info.seed.map utf8) e2).1 0 16 with
  | none =>
    simp [SignusService.create_my_did, hS, hsl] at hc
  | some sl =>
    cases hdid : info.did with
    | none =>
      simp only [SignusService.create_my_did, hS, hsl, hdid, Option.some.injEq,
        Except.ok.injEq] at hc
      subst hc
      exact ⟨rfl, rfl, rfl, rfl, rfl⟩
    | some s =>
      cases hdec : C.decode s with
      | none =>
        simp [SignusService.create_my_did, hS, hsl, hdid, hdec] at hc
      | some bs =>
        simp only [SignusService.create_my_did, hS, hsl, hdid, hdec, Option.some.injEq,
          Except.ok.injEq] at hc
        subst hc
        exact ⟨rfl, rfl, rfl, rfl, rfl⟩

/-- C7: two `create_my_did` calls with the same seed text and the same
algorithm identifier yield identical signing verification keys and identical
signing private keys, whatever entropy each call consumed — the seed reaches
the backend as the raw UTF-8 bytes of the seed text (conjuncts three and
four), not decoded through the exchange codec — while the encryption key
pair is exactly the backend's seedless `create_key_pair` on the call's own
entropy (conjuncts five and six), independent of the seed.  Determinism of
the backend's seeded generation is the spec-modelled hypothesis `hdet`. -/
theorem C7_seed_determinism {E : Type} (S : SignusService E) (B : CryptoType E) (C : Codec)
    (hdet : DeterministicSeeded B) (s : String) (info info' : MyDidInfo)
    (h1 : info.seed = some s) (h2 : info'.seed = some s)
    (hct : info'.crypto_type = info.crypto_type)
    (hS : S.crypto_types (info.crypto_type.getD DEFAULT_CRYPTO_TYPE) = some B)
    (e1 e2 e1' e2' : E) (m m' : MyDid)
    (hc : S.create_my_did C info e1 e2 = some (Except.ok m))
    (hc' : S.create_my_did C info' e1' e2' = some (Except.ok m')) :
    m.ver_key = m'.ver_key ∧ m.sign_key = m'.sign_key
    ∧ m.ver_key = C.encode (B.create_key_pair_for_signature (some (utf8 s)) e2).1
    ∧ m.sign_key = C.encode (B.create_key_pair_for_signature (some (utf8 s)) e2).2
    ∧ m.pk = C.encode (B.create_key_pair e1).1
    ∧ m.secret_key = C.encode (B.create_key_pair e1).2 := by
  have hf := SignusService.create_my_did_fields S B C info e1 e2 m hS hc
  have hf' := SignusService.create_my_did_fields S B C info' e1' e2' m'
    (by rw [hct]; exact hS) hc'
  rw [h1] at hf
  rw [h2] at hf'
  simp only [Option.map_some'] at hf hf'
  have hd := hdet (utf8 s) e2 e2'
  refine ⟨?_, ?_, hf.2.2.2.1, hf.2.2.2.2, hf.2.1, hf.2.2.1⟩
  · rw [hf.2.2.2.1, hf'.2.2.2.1, hd]
  · rw [hf.2.2.2.2, hf'.2.2.2.2, hd]

theorem C7_witness :
    (toyCodec.encode (ED25519Signus.create_key_pair_for_signature (some (utf8 "ab")) 1).1
      = toyCodec.encode (ED25519Signus.create_key_pair_for_signature (some (utf8 "ab")) 7).1)
    ∧ (toyCodec.encode (ED25519Signus.create_key_pair_for_signature (some (utf8 "ab")) 1).2
      = toyCodec.encode (ED25519Signus.create_key_pair_for_signature (some (utf8 "ab")) 7).2)
    ∧ (toyCodec.encode (ED25519Signus.create_key_pair_for_signature (some (utf8 "ab")) 1).1
      = toyCodec.encode (ED25519Signus.create_key_pair_for_signature (some (utf8 "ab")) 1).1)
    ∧ (toyCodec.encode (ED25519Signus.create_key_pair_for_signature (some (utf8 "ab")) 1).2
      = toyCodec.encode (ED25519Signus.create_key_pair_for_signature (some (utf8 "ab")) 1).2)
    ∧ (toyCodec.encode [0] = toyCodec.encode (ED25519Signus.create_key_pair 0).1)
    ∧ (toyCodec.encode [1] = toyCodec.encode (ED25519Signus.create_key_pair 0).2) :=
  C7_seed_determinism (SignusService.new ED25519Signus) ED25519Signus toyCodec
    ED25519Signus_det "ab" ⟨none, some "ab", none⟩ ⟨none, some "ab", none⟩ rfl rfl rfl
    (by simp [SignusService.new, DEFAULT_CRYPTO_TYPE]) 0 1 5 7
    { did := toyCodec.encode ((ED25519Signus.create_key_pair_for_signature (some (utf8 "ab")) 1).1.take 16)
      crypto_type := "ed25519"
      pk := toyCodec.encode [0]
      secret_key := toyCodec.encode [1]
      ver_key := toyCodec.encode (ED25519Signus.create_key_pair_for_signature (some (utf8 "ab")) 1).1
      sign_key := toyCodec.encode (ED25519Signus.create_key_pair_for_signature (some (utf8 "ab")) 1).2 }
    { did := toyCodec.encode ((ED25519Signus.create_key_pair_for_signature (some (utf8 "ab")) 7).1.take 16)
      crypto_type := "ed25519"
      pk := toyCodec.encode [5]
      secret_key := toyCodec.encode [6]
      ver_key := toyCodec.encode (ED25519Signus.create_key_pair_for_signature (some (utf8 "ab")) 7).1
      sign_key := toyCodec.encode (ED25519Signus.create_key_pair_for_signature (some (utf8 "ab")) 7).2 }
    rfl rfl

/-- C1: for every document `d` and every `MyDid` produced by `create_my_did`,
signing `d` with it succeeds, and `verify` on a `TheirDid` carrying that
`MyDid`'s `ver_key` under the same algorithm identifier accepts the
signature with `Ok true`.  The spec-modelled hypotheses are the codec's
reversibility (`hC`) and the backend's sign/verify agreement on a generated
key pair (`hB`). -/
theorem C1_sign_verify_round_trip {E : Type} (S : SignusService E) (B : CryptoType E) (C : Codec)
    (hC : RoundTripCodec C) (hB : SignKeyPairOk B)
    (info : MyDidInfo) (e1 e2 : E) (m : MyDid) (d : String)
    (hS : S.crypto_types (info.crypto_type.getD DEFAULT_CRYPTO_TYPE) = some B)
    (hc : S.create_my_did C info e1 e2 = some (Except.ok m))
    (t : TheirDid) (hv : t.verkey = m.ver_key) (hct : t.crypto_type = some m.crypto_type) :
    S.sign C m d
      = Except.ok (C.encode
          (B.sign (B.create_key_pair_for_signature (info.seed.map utf8) e2).2 (utf8 d)))
    ∧ S.verify C t d
        (C.encode (B.sign (B.create_key_pair_for_signature (info.seed.map utf8) e2).2 (utf8 d)))
      = Except.ok true := by
  obtain ⟨hmct, hmpk, hmsk, hmvk, hmsg⟩ :=
    SignusService.create_my_did_fields S B C info e1 e2 m hS hc
  constructor
  · simp [SignusService.sign, hmct, hS, hmsg, hC _]
  · simp [SignusService.verify, hct, hmct, hS, hv, hmvk, hC _, hB _ _ _]

theorem C1_witness :
    (SignusService.new ED25519Signus).sign toyCodec
      { did := toyCodec.encode ((ED25519Signus.create_key_pair_for_signature none 1).1.take 16)
        crypto_type := "ed25519"
        pk := toyCodec.encode [0]
        secret_key := toyCodec.encode [1]
        ver_key := toyCodec.encode (ED25519Signus.create_key_pair_for_signature none 1).1
        sign_key := toyCodec.encode (ED25519Signus.create_key_pair_for_signature none 1).2 } "ab"
      = Except.ok (toyCodec.encode
          (ED25519Signus.sign (ED25519Signus.create_key_pair_for_signature none 1).2 (utf8 "ab")))
    ∧ (SignusService.new ED25519Signus).verify toyCodec
        ⟨"x", some "ed25519", none,
          toyCodec.encode (ED25519Signus.create_key_pair_for_signature none 1).1⟩ "ab"
        (toyCodec.encode
          (ED25519Signus.sign (ED25519Signus.create_key_pair_for_signature none 1).2 (utf8 "ab")))
      = Except.ok true :=
  C1_sign_verify_round_trip (SignusService.new ED25519Signus) ED25519Signus toyCodec
    toyCodec_roundtrip ED25519Signus_sign_ok ⟨none, none, none⟩ 0 1
    { did := toyCodec.encode ((ED25519Signus.create_key_pair_for_signature none 1).1.take 16)
      crypto_type := "ed25519"
      pk := toyCodec.encode [0]
      secret_key := toyCodec.encode [1]
      ver_key := toyCodec.encode (ED25519Signus.create_key_pair_for_signature none 1).1
      sign_key := toyCodec.encode (ED25519Signus.create_key_pair_for_signature none 1).2 } "ab"
    (by simp [SignusService.new, DEFAULT_CRYPTO_TYPE]) rfl
    ⟨"x", some "ed25519", none,
      toyCodec.encode (ED25519Signus.create_key_pair_for_signature none 1).1⟩ rfl rfl

end Signus
